import Mathlib

/-!
Verification development for the SandSound download-orchestration core.

The Python sources `src/download_manager.py`, `src/downloader.py` and
`src/history.py` are shallowly embedded below: Python dicts become ordered
association lists, floats become exact rationals (`ℚ`), raised exceptions
become `Except` errors, and the thread-pool callbacks of the manager become
explicit interleaving schedules over a small-step model.
-/

namespace SandSound

/-! ## Python dict primitives

An insertion-ordered association list models a Python `dict`:
`dictInsert` overwrites in place when the key exists and appends otherwise,
exactly like `d[k] = v`; `dictLookup` models `d.get(k)` / `k in d`. -/

def dictLookup {α : Type} (d : List (String × α)) (k : String) : Option α :=
  match d with
  | [] => none
  | (k0, v0) :: rest => if k0 = k then some v0 else dictLookup rest k

def dictInsert {α : Type} (d : List (String × α)) (k : String) (v : α) :
    List (String × α) :=
  match d with
  | [] => [(k, v)]
  | (k0, v0) :: rest =>
    if k0 = k then (k0, v) :: rest else (k0, v0) :: dictInsert rest k v

/-! ## CPython float formatting on rationals

`roundHalfEven` is the rounding used by `format(x, '.1f')`; `formatFixed1`
and `formatFixed0` model the f-strings of the sources (only ever applied to
nonnegative values there, since every use is guarded by a `> 0` test). -/

def roundHalfEven (q : ℚ) : ℤ :=
  let f : ℤ := ⌊q⌋
  let r : ℚ := q - f
  if r < 1 / 2 then f
  else if 1 / 2 < r then f + 1
  else if f % 2 = 0 then f else f + 1

/-- Models `f"{q:.1f}"` for nonnegative `q`. -/
def formatFixed1 (q : ℚ) : String :=
  let n : ℕ := (roundHalfEven (q * 10)).toNat
  toString (n / 10) ++ "." ++ toString (n % 10)

/-- Models `f"{q:.0f}"` for nonnegative `q`. -/
def formatFixed0 (q : ℚ) : String :=
  toString (roundHalfEven q).toNat

/-! ## Data model (`download_manager.py` lines 15-49) -/

/-- `TaskStatus` of `download_manager.py`. -/
inductive TaskStatus where
  | queued
  | active
  | completed
  | failed
  | cancelled
deriving DecidableEq, Repr

/-- `DownloadStatus` of `downloader.py`. -/
inductive DownloadStatus where
  | pending
  | downloading
  | processing
  | completed
  | failed
  | cancelled
deriving DecidableEq, Repr

/-- `DownloadProgress` of `downloader.py` (floats as `ℚ`). -/
structure DownloadProgress where
  status : DownloadStatus
  title : String
  progress : ℚ
  speed : String
  eta : String
  filename : String
  error : Option String := none
deriving DecidableEq, Repr

/-- `DownloadTask` of `download_manager.py`. -/
structure DownloadTask where
  task_id : String
  url : String
  title : String
  format_type : String := "mp3"
  quality : String := "best"
  status : TaskStatus := TaskStatus.queued
  progress : ℚ := 0
  speed : String := ""
  eta : String := ""
  error : Option String := none
deriving DecidableEq, Repr

/-- `AggregateProgress` of `download_manager.py`. -/
structure AggregateProgress where
  total_tasks : ℕ
  completed_tasks : ℕ
  active_tasks : ℕ
  queued_tasks : ℕ
  failed_tasks : ℕ
  overall_progress : ℚ
  total_speed : String
  active_titles : List String
deriving DecidableEq, Repr

/-! ## Speed parsing and summation (`DownloadManager._sum_speeds`)

Python string operations (`.strip()`, `.endswith()`, slicing) are modelled
structurally on the character list of the string. -/

/-- The whitespace characters Python `str.strip()` removes (restricted to
those that can occur in this program's strings). -/
def isPySpace (c : Char) : Bool :=
  c = ' ' ∨ c = '\t' ∨ c = '\n' ∨ c = '\r'

/-- Python `s.strip()`. -/
def stripChars (cs : List Char) : List Char :=
  ((cs.dropWhile isPySpace).reverse.dropWhile isPySpace).reverse

/-- Python `s.endswith(suffix)`. -/
def endsWithChars (cs suffix : List Char) : Bool :=
  decide (suffix.length ≤ cs.length) && (cs.drop (cs.length - suffix.length) == suffix)

/-- Python `s[:-n]` for `n ≥ 1`. -/
def dropRightChars (cs : List Char) (n : ℕ) : List Char :=
  cs.take (cs.length - n)

/-- Decimal digits to a natural number (helper for `parseFloatChars`). -/
def digitsToNat (cs : List Char) : ℕ :=
  cs.foldl (fun acc c => acc * 10 + (c.toNat - '0'.toNat)) 0

/-- Splits a character list at the first '.', if any. -/
def splitAtDot (cs : List Char) : List Char × Option (List Char) :=
  match cs with
  | [] => ([], none)
  | c :: rest =>
    if c = '.' then ([], some rest)
    else
      let (intPart, fracPart) := splitAtDot rest
      (c :: intPart, fracPart)

/-- The unsigned part of `parseFloatChars`. -/
def parseFloatBody (cs : List Char) : Option ℚ :=
  let (intPart, fracPart) := splitAtDot cs
  let frac := fracPart.getD []
  if intPart.all Char.isDigit ∧ frac.all Char.isDigit ∧
      (intPart ≠ [] ∨ frac ≠ []) ∧ (fracPart ≠ none ∨ intPart ≠ []) then
    some ((digitsToNat intPart : ℚ) + (digitsToNat frac : ℚ) / (10 ^ frac.length : ℚ))
  else none

/-- Models Python `float(s)` on the plain decimal strings this program
produces (`digits` / `digits.digits`, optional sign, surrounding
whitespace): `none` models a `ValueError`. -/
def parseFloatChars (cs0 : List Char) : Option ℚ :=
  match stripChars cs0 with
  | '-' :: rest => (parseFloatBody rest).map (fun q => -q)
  | '+' :: rest => parseFloatBody rest
  | cs => parseFloatBody cs

/-- One loop iteration of `_sum_speeds` (lines 255-262): parses one task's
speed string back to bytes/s. `some 0` models the fall-through when no unit
suffix matches (the loop adds nothing); `none` models `float` raising. -/
def parseSpeedStr (speed0 : String) : Option ℚ :=
  let speed := stripChars speed0.data
  if endsWithChars speed ['M', 'B', '/', 's'] then
    (parseFloatChars (dropRightChars speed 4)).map (fun q => q * 1024 * 1024)
  else if endsWithChars speed ['K', 'B', '/', 's'] then
    (parseFloatChars (dropRightChars speed 4)).map (fun q => q * 1024)
  else if endsWithChars speed ['B', '/', 's'] then
    parseFloatChars (dropRightChars speed 3)
  else some 0

/-- The accumulation loop of `_sum_speeds`: total bytes/s over ACTIVE
tasks with a nonempty speed string (`none` models `float` raising). -/
def sum_speeds_bytes (tasks : List DownloadTask) : Option ℚ :=
  tasks.foldlM
    (fun acc t =>
      if t.status ≠ TaskStatus.active ∨ t.speed = "" then some acc
      else (parseSpeedStr t.speed).map (fun q => acc + q))
    0

/-- The re-formatting tail of `_sum_speeds` (lines 264-271). -/
def formatSpeed (total_bytes : ℚ) : String :=
  if total_bytes > 1024 * 1024 then
    formatFixed1 (total_bytes / (1024 * 1024)) ++ " MB/s"
  else if total_bytes > 1024 then
    formatFixed1 (total_bytes / 1024) ++ " KB/s"
  else if total_bytes > 0 then
    formatFixed0 total_bytes ++ " B/s"
  else ""

/-- `DownloadManager._sum_speeds` (`none` models an escaping exception). -/
def sum_speeds (tasks : List DownloadTask) : Option String :=
  (sum_speeds_bytes tasks).map formatSpeed

/-! ## Aggregate computation (`DownloadManager._notify_aggregate_update`) -/

/-- The `total_progress` accumulation loop (lines 219-224). -/
def total_progress (tasks : List DownloadTask) : ℚ :=
  tasks.foldl
    (fun acc t =>
      if t.status = TaskStatus.completed then acc + 100
      else if t.status = TaskStatus.active then acc + t.progress
      else acc)
    0

/-- `DownloadManager._notify_aggregate_update` on a registry snapshot,
with an aggregate callback registered (the early return when none is
registered delivers nothing): `none` when no aggregate is delivered
(empty registry, or `_sum_speeds` raised before the callback), `some a`
for the delivered aggregate. -/
def notify_aggregate_update (tasks : List DownloadTask) : Option AggregateProgress :=
  if tasks = [] then none
  else
    let completed := tasks.countP (fun t => t.status = TaskStatus.completed)
    let active := tasks.countP (fun t => t.status = TaskStatus.active)
    let queued := tasks.countP (fun t => t.status = TaskStatus.queued)
    let failed := tasks.countP
      (fun t => t.status = TaskStatus.failed ∨ t.status = TaskStatus.cancelled)
    let overall : ℚ :=
      if tasks = [] then 0 else total_progress tasks / (tasks.length : ℚ)
    match sum_speeds tasks with
    | none => none
    | some total_speed =>
      some
        { total_tasks := tasks.length
          completed_tasks := completed
          active_tasks := active
          queued_tasks := queued
          failed_tasks := failed
          overall_progress := overall
          total_speed := total_speed
          active_titles := (tasks.filter
            (fun t => t.status = TaskStatus.active)).map (fun t => t.title) }

/-! ## Manager registry state and `submit_tasks` (lines 93-115)

The executor and `Future` objects are opaque scheduling machinery; the
claim-relevant state is the task registry, the cancellation flags and the
`_is_running` flag, all guarded by the one manager lock. -/

structure ManagerState where
  tasks : List (String × DownloadTask)
  cancel_flags : List (String × Bool)
  is_running : Bool
deriving DecidableEq, Repr

/-- `DownloadManager.submit_tasks`: unconditionally sets `_is_running`,
then registers every submitted task with a fresh (unset) cancellation
flag. There is no check of `_is_running` before doing so. -/
def submit_tasks (s : ManagerState) (batch : List DownloadTask) : ManagerState :=
  batch.foldl
    (fun st task =>
      { st with
          tasks := dictInsert st.tasks task.task_id task
          cancel_flags := dictInsert st.cancel_flags task.task_id false })
    { s with is_running := true }

/-! ## Batch-completion protocol (`_download_task` return + `_on_task_done`)

A worker finishing task `i` is two separate critical sections in the code:
first `_download_task` stores the terminal status under the lock (lines
162-178), then the future's done-callback `_on_task_done` re-acquires the
lock, reads whether every task is terminal, and fires `on_batch_complete`
outside the lock if so (lines 180-195). Each of these is one atomic step
here; a schedule is an interleaving of the steps of all workers. -/

def TaskStatus.isTerminal : TaskStatus → Bool
  | TaskStatus.completed => true
  | TaskStatus.failed => true
  | TaskStatus.cancelled => true
  | _ => false

inductive BatchEvent where
  | finish (i : ℕ) (outcome : TaskStatus)
  | doneCB (i : ℕ)
deriving DecidableEq, Repr

structure BatchState where
  statuses : List TaskStatus
  fired : ℕ
  is_running : Bool
deriving DecidableEq, Repr

/-- One step of the completion protocol. `finish i st` is the terminal
store of `_download_task`; `doneCB i` is `_on_task_done`: under the lock it
evaluates `all_done`, and if true clears `_is_running` and invokes
`on_batch_complete` (counted by `fired`). -/
def batchStep (s : BatchState) : BatchEvent → BatchState
  | BatchEvent.finish i outcome => { s with statuses := s.statuses.set i outcome }
  | BatchEvent.doneCB _ =>
    if s.statuses.all TaskStatus.isTerminal then
      { s with fired := s.fired + 1, is_running := false }
    else s

def runSchedule (s : BatchState) (sched : List BatchEvent) : BatchState :=
  sched.foldl batchStep s

def isFinishOf (i : ℕ) : BatchEvent → Bool
  | BatchEvent.finish j _ => j = i
  | _ => false

def isDoneOf (i : ℕ) : BatchEvent → Bool
  | BatchEvent.doneCB j => j = i
  | _ => false

/-- A schedule is valid for `n` tasks when every task finishes exactly once
with a terminal outcome, its done-callback runs exactly once and only after
its finish (a future's done-callback follows the worker function's return),
and no event mentions a task outside the batch. -/
def validSchedule (n : ℕ) (sched : List BatchEvent) : Bool :=
  (List.range n).all (fun i =>
    sched.countP (isFinishOf i) = 1 && sched.countP (isDoneOf i) = 1 &&
    match sched.findIdx? (isFinishOf i), sched.findIdx? (isDoneOf i) with
    | some a, some b => a < b
    | _, _ => false) &&
  sched.all (fun e =>
    match e with
    | BatchEvent.finish i outcome => i < n && outcome.isTerminal
    | BatchEvent.doneCB i => i < n)

/-! ## Downloader execution and cancellation (`downloader.py` `download`,
`download_manager.py` `_download_task`)

Real time is discretized by the progress-callback invocation counter `t`:
the task's cancellation flag is a monotone boolean function of `t`
(`threading.Event` is set once and stays set). Each callback invocation
observes the flag at its own instant. -/

/-- The flag of a `threading.Event`: once set, it stays set. -/
def MonotoneFlag (flag : ℕ → Bool) : Prop :=
  ∀ i j : ℕ, i ≤ j → flag i = true → flag j = true

/-- One raw `d` dict delivered by yt-dlp to `progress_hook`
(lines 249-293 of `downloader.py`); numeric fields as exact rationals. -/
structure HookPayload where
  hstatus : String
  downloaded_bytes : Option ℚ := none
  total_bytes : Option ℚ := none
  total_bytes_estimate : Option ℚ := none
  speed : Option ℚ := none
  eta : Option ℤ := none
  filename : String := ""
deriving DecidableEq, Repr

/-- Status translation of `progress_hook` (lines 256-260). -/
def hookStatus (d : HookPayload) : DownloadStatus :=
  if d.hstatus = "finished" then DownloadStatus.processing
  else if d.hstatus = "error" then DownloadStatus.failed
  else DownloadStatus.downloading

/-- Percent computation of `progress_hook` (lines 262-268). -/
def hookProgress (d : HookPayload) : ℚ :=
  match d.downloaded_bytes, d.total_bytes with
  | some db, some tb => if tb > 0 then db / tb * 100 else 0
  | _, _ =>
    match d.downloaded_bytes, d.total_bytes_estimate with
    | some db, some tbe => if tbe ≠ 0 ∧ tbe > 0 then db / tbe * 100 else 0
    | _, _ => 0

/-- Speed formatting of `progress_hook` (lines 270-278); `d.get("speed")`
falsy (absent or zero) yields the empty string. -/
def hookSpeedStr (d : HookPayload) : String :=
  match d.speed with
  | none => ""
  | some sp =>
    if sp = 0 then ""
    else if sp > 1024 * 1024 then formatFixed1 (sp / (1024 * 1024)) ++ " MB/s"
    else if sp > 1024 then formatFixed1 (sp / 1024) ++ " KB/s"
    else formatFixed0 sp ++ " B/s"

/-- Two-digit zero-padded seconds for the ETA string. -/
def pad2 (n : ℕ) : String :=
  if n < 10 then "0" ++ toString n else toString n

/-- ETA formatting of `progress_hook` (lines 280-284); falsy ETA (absent
or zero) yields the empty string. -/
def hookEtaStr (d : HookPayload) : String :=
  match d.eta with
  | none => ""
  | some e =>
    if e = 0 then ""
    else toString (e.toNat / 60) ++ ":" ++ pad2 (e.toNat % 60)

/-- The `DownloadProgress` that `progress_hook` hands to the manager's
callback for one raw payload. -/
def hookEvent (ct : String) (d : HookPayload) : DownloadProgress :=
  { status := hookStatus d
    title := ct
    progress := hookProgress d
    speed := hookSpeedStr d
    eta := hookEtaStr d
    filename := d.filename }

/-- The PENDING event sent before `ydl.download` (lines 304-312). -/
def pendingEvent (ct : String) : DownloadProgress :=
  { status := DownloadStatus.pending, title := ct, progress := 0,
    speed := "", eta := "", filename := "" }

/-- The COMPLETED event sent after `ydl.download` returns (lines 316-324). -/
def completedEvent (ct : String) : DownloadProgress :=
  { status := DownloadStatus.completed, title := ct, progress := 100,
    speed := "", eta := "", filename := "" }

/-- The FAILED event sent from the `except` handler (lines 330-339). -/
def failedEvent (ct : String) (msg : String) : DownloadProgress :=
  { status := DownloadStatus.failed, title := ct, progress := 0,
    speed := "", eta := "", filename := "", error := some msg }

/-- The manager's per-task `progress_callback` (`_download_task` lines
134-152) at invocation instant `t`: raises `Download cancelled` when the
task's cancellation flag is set, otherwise updates the task fields under
the lock. `Except.error msg` models the raise. -/
def mgr_progress_callback (flag : ℕ → Bool) (t : ℕ) (task : DownloadTask)
    (p : DownloadProgress) : Except String DownloadTask :=
  if flag t then Except.error "Download cancelled"
  else
    let task := { task with progress := p.progress, speed := p.speed, eta := p.eta }
    Except.ok
      (if p.status = DownloadStatus.completed then
        { task with status := TaskStatus.completed, progress := 100 }
      else if p.status = DownloadStatus.failed then
        { task with status := TaskStatus.failed, error := p.error }
      else task)

/-- A scripted run of the external engine inside `Downloader.download`:
the outcome of `extract_info` (an escaping engine error, `None`, or an
info dict with a title), the raw progress payloads `ydl.download` pushes
through `progress_hook`, and whether `ydl.download` itself then raises.
The downloader's own `_cancel_flag` is cleared at entry (line 221) and the
manager never calls `Downloader.cancel`, so it stays unset here. -/
structure EngineScript where
  info_result : Except String (Option String)
  hooks : List HookPayload
  fault : Option String
deriving Repr

/-- Delivery of the scripted hook payloads: threads the task through the
manager callback, counting invocations; stops at the first raise
(`some msg` = the exception propagating out of `ydl.download`). -/
def runHooks (flag : ℕ → Bool) (ct : String) (hooks : List HookPayload)
    (t : ℕ) (task : DownloadTask) : DownloadTask × ℕ × Option String :=
  match hooks with
  | [] => (task, t, none)
  | d :: rest =>
    match mgr_progress_callback flag t task (hookEvent ct d) with
    | Except.error msg => (task, t + 1, some msg)
    | Except.ok task2 => runHooks flag ct rest (t + 1) task2

/-- The `except` handler of `Downloader.download` (lines 328-340): sends a
FAILED event through the callback and returns `False`; if that callback
itself raises (the cancellation check), the new exception escapes
`download`. -/
def download_except_handler (flag : ℕ → Bool) (ct : String) (t : ℕ)
    (task : DownloadTask) (msg : String) : DownloadTask × ℕ × Except String Bool :=
  match mgr_progress_callback flag t task (failedEvent ct msg) with
  | Except.error e => (task, t + 1, Except.error e)
  | Except.ok task2 => (task2, t + 1, Except.ok false)

/-- `current_title` after `extract_info` (lines 247, 300-302): "Unknown"
unless the info dict carried a title. -/
def titleOf (info : Option String) : String :=
  match info with
  | some s => s
  | none => "Unknown"

/-- `Downloader.download` as called by `_download_task`: returns the task
state after all callback effects, the final invocation counter, and the
call's outcome (`ok b` = returned `b`, `error msg` = raised). -/
def downloader_download (flag : ℕ → Bool) (script : EngineScript)
    (task : DownloadTask) : DownloadTask × ℕ × Except String Bool :=
  match script.info_result with
  | Except.error msg => download_except_handler flag "Unknown" 0 task msg
  | Except.ok info =>
    match mgr_progress_callback flag 0 task (pendingEvent (titleOf info)) with
    | Except.error msg => download_except_handler flag (titleOf info) 1 task msg
    | Except.ok task1 =>
      match runHooks flag (titleOf info) script.hooks 1 task1 with
      | (task2, t2, some msg) => download_except_handler flag (titleOf info) t2 task2 msg
      | (task2, t2, none) =>
        match script.fault with
        | some msg => download_except_handler flag (titleOf info) t2 task2 msg
        | none =>
          match mgr_progress_callback flag t2 task2 (completedEvent (titleOf info)) with
          | Except.error msg =>
            download_except_handler flag (titleOf info) (t2 + 1) task2 msg
          | Except.ok task3 => (task3, t2 + 1, Except.ok true)

/-- `DownloadManager._download_task` (lines 117-178): marks the task
ACTIVE, runs the downloader, then applies the terminal classification —
on success COMPLETED, on `False` FAILED, and on an escaping exception the
cancellation flag (observed after the raise, hence at the final instant)
decides between CANCELLED and FAILED. -/
def manager_download_task (flag : ℕ → Bool) (script : EngineScript)
    (task0 : DownloadTask) : DownloadTask :=
  match downloader_download flag script { task0 with status := TaskStatus.active } with
  | (task1, _, Except.ok true) =>
    { task1 with status := TaskStatus.completed, progress := 100 }
  | (task1, _, Except.ok false) => { task1 with status := TaskStatus.failed }
  | (task1, t1, Except.error msg) =>
    if flag t1 then { task1 with status := TaskStatus.cancelled }
    else { task1 with status := TaskStatus.failed, error := some msg }

/-! ## History ledger (`history.py`)

JSON values and the Python exceptions `_load` can meet. A dataclass field
annotation is not enforced at runtime, so loaded record fields keep their
raw JSON values. -/

inductive JValue where
  | null
  | jbool (b : Bool)
  | num (q : ℚ)
  | str (s : String)
  | arr (xs : List JValue)
  | obj (fields : List (String × JValue))

inductive PyErr where
  | keyError
  | typeError
  | attributeError
  | jsonDecodeError
  | ioError
deriving DecidableEq, Repr

/-- `v.get(key, dflt)`: `AttributeError` when `v` is not a dict. -/
def pyGet (v : JValue) (key : String) (dflt : JValue) : Except PyErr JValue :=
  match v with
  | JValue.obj fs => Except.ok ((dictLookup fs key).getD dflt)
  | _ => Except.error PyErr.attributeError

/-- `v.items()`: `AttributeError` when `v` is not a dict. -/
def pyItems (v : JValue) : Except PyErr (List (String × JValue)) :=
  match v with
  | JValue.obj fs => Except.ok fs
  | _ => Except.error PyErr.attributeError

/-- `v[key]` with a string key: `KeyError` when missing, `TypeError` when
`v` is not a dict (list/str/number indexing by str). -/
def pyIndex (v : JValue) (key : String) : Except PyErr JValue :=
  match v with
  | JValue.obj fs =>
    match dictLookup fs key with
    | some x => Except.ok x
    | none => Except.error PyErr.keyError
  | _ => Except.error PyErr.typeError

/-- `DownloadedVideo` of `history.py`; fields hold the raw loaded values. -/
structure DownloadedVideo where
  video_id : JValue
  title : JValue
  downloaded_at : JValue
  format : JValue
  quality : JValue

/-- The keyword parameters of the `DownloadedVideo` dataclass. -/
def dvKeys : List String := ["video_id", "title", "downloaded_at", "format", "quality"]

/-- `DownloadedVideo(**v_data)`: `TypeError` unless `v_data` is a mapping
whose keys are exactly the five dataclass fields (missing required or
unexpected keyword argument). -/
def downloadedVideoOfKwargs (v : JValue) : Except PyErr DownloadedVideo :=
  match v with
  | JValue.obj fs =>
    if (dvKeys.all (fun k => (dictLookup fs k).isSome) &&
        fs.all (fun kv => dvKeys.contains kv.1)) = true then
      Except.ok
        { video_id := (dictLookup fs "video_id").getD JValue.null
          title := (dictLookup fs "title").getD JValue.null
          downloaded_at := (dictLookup fs "downloaded_at").getD JValue.null
          format := (dictLookup fs "format").getD JValue.null
          quality := (dictLookup fs "quality").getD JValue.null }
    else Except.error PyErr.typeError
  | _ => Except.error PyErr.typeError

/-- `PlaylistRecord` of `history.py`; `videos` is the `item_id → record`
dict (JSON object keys are strings). -/
structure PlaylistRecord where
  playlist_id : JValue
  playlist_url : JValue
  title : JValue
  last_downloaded : JValue
  videos : List (String × DownloadedVideo)

/-- `PlaylistRecord.from_dict` (lines 42-54): the `videos` loop runs
first, then the four required keys are read (missing ⇒ `KeyError`). -/
def playlistRecordFromDict (data : JValue) : Except PyErr PlaylistRecord := do
  let vobj ← pyGet data "videos" (JValue.obj [])
  let vitems ← pyItems vobj
  let videos ← vitems.mapM
    (fun kv => (downloadedVideoOfKwargs kv.2).map (fun dv => (kv.1, dv)))
  let pid ← pyIndex data "playlist_id"
  let purl ← pyIndex data "playlist_url"
  let ttl ← pyIndex data "title"
  let ld ← pyIndex data "last_downloaded"
  Except.ok
    { playlist_id := pid, playlist_url := purl, title := ttl,
      last_downloaded := ld, videos := videos }

/-- In-memory state of `DownloadHistory`. -/
structure DownloadHistoryState where
  playlists : List (String × PlaylistRecord)
  single_videos : List (String × DownloadedVideo)

/-- The body of the `try` block in `DownloadHistory._load` (lines 85-95),
given the outcome of `open` + `json.load` (`error` = an `IOError` or
`JSONDecodeError` from reading/parsing the file). -/
def loadBody (contents : Except PyErr JValue) : Except PyErr DownloadHistoryState := do
  let data ← contents
  let pls ← pyGet data "playlists" (JValue.obj [])
  let plItems ← pyItems pls
  let playlists ← plItems.mapM
    (fun kv => (playlistRecordFromDict kv.2).map (fun r => (kv.1, r)))
  let svs ← pyGet data "single_videos" (JValue.obj [])
  let svItems ← pyItems svs
  let singles ← svItems.mapM
    (fun kv => (downloadedVideoOfKwargs kv.2).map (fun dv => (kv.1, dv)))
  Except.ok { playlists := playlists, single_videos := singles }

/-- The exception classes named in the `except` clause of `_load`
(line 97): `json.JSONDecodeError`, `IOError`, `KeyError`. -/
def caughtByLoad : PyErr → Bool
  | PyErr.jsonDecodeError => true
  | PyErr.ioError => true
  | PyErr.keyError => true
  | _ => false

/-- `DownloadHistory._load` as run by the constructor: `none` = the file
does not exist (both dicts stay empty); otherwise the `try` body runs on
the file contents, a caught exception resets both dicts to empty, and any
other exception escapes the constructor (`Except.error`). -/
def history_load (file : Option (Except PyErr JValue)) :
    Except PyErr DownloadHistoryState :=
  match file with
  | none => Except.ok { playlists := [], single_videos := [] }
  | some contents =>
    match loadBody contents with
    | Except.ok st => Except.ok st
    | Except.error e =>
      if caughtByLoad e then Except.ok { playlists := [], single_videos := [] }
      else Except.error e

/-- `DownloadHistory.get_downloaded_video_ids` (lines 163-175): the key
set of the playlist's `videos` dict, empty for an unknown playlist. Only
membership in the returned set is ever used; the insertion-ordered key
list carries the same membership. -/
def get_downloaded_video_ids (h : DownloadHistoryState) (playlist_id : String) :
    List String :=
  match dictLookup h.playlists playlist_id with
  | some record => record.videos.map (fun kv => kv.1)
  | none => []

/-- `DownloadHistory.get_new_videos` (lines 177-193). -/
def get_new_videos (h : DownloadHistoryState) (playlist_id : String)
    (current_video_ids : List String) : List String :=
  let downloaded := get_downloaded_video_ids h playlist_id
  current_video_ids.filter (fun vid => ¬ downloaded.contains vid)

/-- `DownloadHistory.is_video_downloaded` (lines 195-212). Python's
`if playlist_id and playlist_id in self._playlists` makes the playlist
branch require a truthy (non-empty) id that is present in the dict;
otherwise the lookup falls through to the `single_videos` dict. -/
def is_video_downloaded (h : DownloadHistoryState) (video_id : String)
    (playlist_id : Option String) : Bool :=
  match playlist_id with
  | some pid =>
    if pid ≠ "" then
      match dictLookup h.playlists pid with
      | some record => ((dictLookup record.videos video_id).isSome : Bool)
      | none => (dictLookup h.single_videos video_id).isSome
    else (dictLookup h.single_videos video_id).isSome
  | none => (dictLookup h.single_videos video_id).isSome

/-! ## Spec-side definitions (refinement targets, written from the spec's
own wording, to be compared against the code-derived functions above) -/

/-- The spec's per-task contribution to `overallProgress`: 100 for
COMPLETED, the current percent for ACTIVE, 0 for QUEUED/FAILED/CANCELLED. -/
def specOverallContribution (t : DownloadTask) : ℚ :=
  match t.status with
  | TaskStatus.completed => 100
  | TaskStatus.active => t.progress
  | _ => 0

/-- The spec's `totalThroughput`: the byte rates of the ACTIVE tasks,
parsed back from their speed strings, summed (a parse failure propagates). -/
def specActiveByteRateSum : List DownloadTask → Option ℚ
  | [] => some 0
  | t :: rest =>
    if t.status = TaskStatus.active then
      (parseSpeedStr t.speed).bind (fun q => (specActiveByteRateSum rest).map (fun s => q + s))
    else specActiveByteRateSum rest

/-- The spec's `totalThroughput`, re-formatted with a magnitude-appropriate
unit. -/
def specTotalThroughput (tasks : List DownloadTask) : Option String :=
  (specActiveByteRateSum tasks).map formatSpeed

/-! ## Helper lemmas -/

theorem countP_status_partition (tasks : List DownloadTask) :
    tasks.countP (fun t => t.status = TaskStatus.completed)
      + tasks.countP (fun t => t.status = TaskStatus.active)
      + tasks.countP (fun t => t.status = TaskStatus.queued)
      + tasks.countP
          (fun t => t.status = TaskStatus.failed ∨ t.status = TaskStatus.cancelled)
      = tasks.length := by
  induction tasks with
  | nil => simp
  | cons t rest ih =>
    simp only [List.countP_cons, List.length_cons, Bool.decide_or] at ih ⊢
    cases h : t.status <;> simp [h] <;> omega

theorem total_progress_foldl_eq (tasks : List DownloadTask) (acc : ℚ) :
    tasks.foldl
      (fun acc t =>
        if t.status = TaskStatus.completed then acc + 100
        else if t.status = TaskStatus.active then acc + t.progress
        else acc)
      acc = acc + (tasks.map specOverallContribution).sum := by
  induction tasks generalizing acc with
  | nil => simp
  | cons t rest ih =>
    simp only [List.foldl_cons, List.map_cons, List.sum_cons, ih]
    cases h : t.status <;> simp [specOverallContribution, h] <;> ring

theorem total_progress_eq_sum (tasks : List DownloadTask) :
    total_progress tasks = (tasks.map specOverallContribution).sum := by
  have h := total_progress_foldl_eq tasks 0
  simpa [total_progress] using h

theorem countP_failed_split (tasks : List DownloadTask) :
    tasks.countP
        (fun t => t.status = TaskStatus.failed ∨ t.status = TaskStatus.cancelled)
      = tasks.countP (fun t => t.status = TaskStatus.failed)
        + tasks.countP (fun t => t.status = TaskStatus.cancelled) := by
  induction tasks with
  | nil => simp
  | cons t rest ih =>
    simp only [List.countP_cons, Bool.decide_or] at ih ⊢
    cases h : t.status <;> simp [h] <;> omega

/-! ## Claims about the aggregate snapshot -/

/-- C4: for every aggregate snapshot produced from the task registry, the
counts satisfy completed + active + queued + failed = total, where total is
the number of tasks in the registry, whatever the status distribution
(CANCELLED included). -/
theorem aggregate_counts_partition (tasks : List DownloadTask) (a : AggregateProgress)
    (h : notify_aggregate_update tasks = some a) :
    a.completed_tasks + a.active_tasks + a.queued_tasks + a.failed_tasks
      = a.total_tasks := by
  by_cases he : tasks = []
  · simp [notify_aggregate_update, he] at h
  · simp only [notify_aggregate_update, if_neg he] at h
    cases hs : sum_speeds tasks with
    | none => rw [hs] at h; simp at h
    | some sp =>
      rw [hs] at h
      simp only [Option.some.injEq] at h
      subst h
      simpa using countP_status_partition tasks

/-- Concrete registry snapshot and its aggregate, exercising a COMPLETED,
an ACTIVE and a FAILED task. -/
def sampleTasks : List DownloadTask :=
  [{ task_id := "c", url := "u", title := "C", status := TaskStatus.completed },
   { task_id := "a", url := "u", title := "A", status := TaskStatus.active,
     progress := 40 },
   { task_id := "x", url := "u", title := "X", status := TaskStatus.failed }]

def sampleAggregate : AggregateProgress :=
  { total_tasks := 3, completed_tasks := 1, active_tasks := 1,
    queued_tasks := 0, failed_tasks := 1, overall_progress := 140 / 3,
    total_speed := "", active_titles := ["A"] }

theorem sample_aggregate_eval :
    notify_aggregate_update sampleTasks = some sampleAggregate := by
  simp [sampleTasks, sampleAggregate, notify_aggregate_update, sum_speeds,
    sum_speeds_bytes, total_progress, formatSpeed]
  norm_num

theorem aggregate_counts_partition_witness :
    notify_aggregate_update sampleTasks = some sampleAggregate ∧
    sampleAggregate.completed_tasks + sampleAggregate.active_tasks
        + sampleAggregate.queued_tasks + sampleAggregate.failed_tasks
      = sampleAggregate.total_tasks :=
  ⟨sample_aggregate_eval,
    aggregate_counts_partition sampleTasks sampleAggregate sample_aggregate_eval⟩

/-- C7: for every aggregate the manager produces, `overall_progress` is the
arithmetic mean over all tasks of 100 for COMPLETED, the current percent
for ACTIVE, and 0 for QUEUED/FAILED/CANCELLED — failed and cancelled tasks
contribute zero but stay in the denominator. -/
theorem overall_progress_is_mean (tasks : List DownloadTask) (a : AggregateProgress)
    (h : notify_aggregate_update tasks = some a) :
    a.overall_progress = (tasks.map specOverallContribution).sum / (tasks.length : ℚ) := by
  by_cases he : tasks = []
  · simp [notify_aggregate_update, he] at h
  · simp only [notify_aggregate_update, if_neg he] at h
    cases hs : sum_speeds tasks with
    | none => rw [hs] at h; simp at h
    | some sp =>
      rw [hs] at h
      simp only [Option.some.injEq] at h
      subst h
      simp [he, total_progress_eq_sum]

theorem overall_progress_is_mean_witness :
    notify_aggregate_update sampleTasks = some sampleAggregate ∧
    sampleAggregate.overall_progress
      = (sampleTasks.map specOverallContribution).sum / (sampleTasks.length : ℚ) :=
  ⟨sample_aggregate_eval,
    overall_progress_is_mean sampleTasks sampleAggregate sample_aggregate_eval⟩

/-- A FAILED demo task and its CANCELLED twin (identical otherwise). -/
def oneFailedTask : DownloadTask :=
  { task_id := "f", url := "u", title := "F", status := TaskStatus.failed }

def oneCancelledTask : DownloadTask :=
  { oneFailedTask with status := TaskStatus.cancelled }

/-- C10: in every aggregate the manager produces, `failed_tasks` counts
FAILED and CANCELLED tasks together; there is no separate cancelled field,
and two registries differing only in FAILED versus CANCELLED yield the very
same aggregate. -/
theorem failed_tasks_merges_cancelled :
    (∀ tasks a, notify_aggregate_update tasks = some a →
        a.failed_tasks
          = tasks.countP (fun t => t.status = TaskStatus.failed)
            + tasks.countP (fun t => t.status = TaskStatus.cancelled)) ∧
    notify_aggregate_update [oneFailedTask] = notify_aggregate_update [oneCancelledTask] := by
  constructor
  · intro tasks a h
    by_cases he : tasks = []
    · simp [notify_aggregate_update, he] at h
    · simp only [notify_aggregate_update, if_neg he] at h
      cases hs : sum_speeds tasks with
      | none => rw [hs] at h; simp at h
      | some sp =>
        rw [hs] at h
        simp only [Option.some.injEq] at h
        subst h
        simpa using countP_failed_split tasks
  · simp [notify_aggregate_update, oneFailedTask, oneCancelledTask,
      sum_speeds, sum_speeds_bytes, total_progress, formatSpeed]

/-- The aggregate of one FAILED plus one CANCELLED task. -/
def mergedAggregate : AggregateProgress :=
  { total_tasks := 2, completed_tasks := 0, active_tasks := 0,
    queued_tasks := 0, failed_tasks := 2, overall_progress := 0,
    total_speed := "", active_titles := [] }

theorem merged_aggregate_eval :
    notify_aggregate_update [oneFailedTask, oneCancelledTask] = some mergedAggregate := by
  simp [notify_aggregate_update, oneFailedTask, oneCancelledTask, mergedAggregate,
    sum_speeds, sum_speeds_bytes, total_progress, formatSpeed]
  norm_num

theorem failed_tasks_merges_cancelled_witness :
    mergedAggregate.failed_tasks
      = [oneFailedTask, oneCancelledTask].countP
          (fun t => t.status = TaskStatus.failed)
        + [oneFailedTask, oneCancelledTask].countP
            (fun t => t.status = TaskStatus.cancelled) :=
  failed_tasks_merges_cancelled.1 [oneFailedTask, oneCancelledTask]
    mergedAggregate merged_aggregate_eval

/-! ## Claims about the history ledger -/

/-- A minimal video record; its field values are never inspected by the
lookup operations. -/
def demoVideo : DownloadedVideo :=
  { video_id := JValue.null, title := JValue.null, downloaded_at := JValue.null,
    format := JValue.null, quality := JValue.null }

/-- A history in which playlist "PL" has items v1, v2, v5, v6 recorded. -/
def scenarioHistory : DownloadHistoryState :=
  { playlists :=
      [("PL", { playlist_id := JValue.str "PL", playlist_url := JValue.null,
                title := JValue.null, last_downloaded := JValue.null,
                videos := [("v1", demoVideo), ("v2", demoVideo),
                           ("v5", demoVideo), ("v6", demoVideo)] })]
    single_videos := [] }

/-- C6: `get_new_videos` returns exactly the candidate ids not recorded
under the playlist, as an order-preserving subsequence; on a 10-id
collection with 4 recorded, it returns exactly the other 6 in original
relative order. -/
theorem get_new_videos_filters :
    (∀ h pid cur, (get_new_videos h pid cur).Sublist cur) ∧
    (∀ h pid cur v, v ∈ get_new_videos h pid cur ↔
        v ∈ cur ∧ ¬ v ∈ get_downloaded_video_ids h pid) ∧
    get_new_videos scenarioHistory "PL"
        ["v1", "v2", "v3", "v4", "v5", "v6", "v7", "v8", "v9", "v10"]
      = ["v3", "v4", "v7", "v8", "v9", "v10"] := by
  refine ⟨?_, ?_, ?_⟩
  · intro h pid cur
    exact List.filter_sublist cur
  · intro h pid cur v
    simp [get_new_videos]
  · decide

/-- C5 counterexample: an item recorded only as a standalone fetch is
reported as fetched when queried with a collection context that is absent
from the ledger — the lookup falls through to the standalone map. -/
theorem is_video_downloaded_context_cex :
    is_video_downloaded
        { playlists := [], single_videos := [("v", demoVideo)] } "v" (some "P") = true ∧
    dictLookup ({ playlists := [], single_videos := [("v", demoVideo)] }
        : DownloadHistoryState).playlists "P" = none :=
  ⟨rfl, rfl⟩

/-- C5 amended: the fetched-lookup is context-qualified only when the
queried collection id is non-empty and present in the ledger. An item
recorded only inside a collection is not fetched without context; an item
recorded only standalone is not fetched under a collection context that
exists in the ledger; but under a collection id absent from the ledger the
lookup falls back to the standalone map. -/
theorem is_video_downloaded_context_qualified (h : DownloadHistoryState)
    (vid pid : String) (record : PlaylistRecord) :
    (dictLookup h.single_videos vid = none →
      is_video_downloaded h vid none = false) ∧
    (pid ≠ "" → dictLookup h.playlists pid = some record →
      dictLookup record.videos vid = none →
      is_video_downloaded h vid (some pid) = false) ∧
    (dictLookup h.playlists pid = none →
      is_video_downloaded h vid (some pid)
        = (dictLookup h.single_videos vid).isSome) := by
  refine ⟨?_, ?_, ?_⟩
  · intro hs
    simp [is_video_downloaded, hs]
  · intro hne hp hvnone
    simp [is_video_downloaded, hne, hp, hvnone]
  · intro hp
    by_cases hne : pid = ""
    · simp [is_video_downloaded, hne]
    · simp [is_video_downloaded, hne, hp]

/-- A history with playlist "P" containing only item "x", and standalone
item "v". -/
def demoPlaylistRec : PlaylistRecord :=
  { playlist_id := JValue.str "P", playlist_url := JValue.null,
    title := JValue.null, last_downloaded := JValue.null,
    videos := [("x", demoVideo)] }

def demoHistory : DownloadHistoryState :=
  { playlists := [("P", demoPlaylistRec)], single_videos := [("v", demoVideo)] }

theorem is_video_downloaded_context_qualified_witness :
    is_video_downloaded demoHistory "y" none = false ∧
    is_video_downloaded demoHistory "v" (some "P") = false ∧
    is_video_downloaded demoHistory "v" (some "Q")
      = (dictLookup demoHistory.single_videos "v").isSome :=
  ⟨(is_video_downloaded_context_qualified demoHistory "y" "P" demoPlaylistRec).1 rfl,
   (is_video_downloaded_context_qualified demoHistory "v" "P" demoPlaylistRec).2.1
      (by decide) rfl rfl,
   (is_video_downloaded_context_qualified demoHistory "v" "Q" demoPlaylistRec).2.2 rfl⟩

/-- C9 counterexample: a syntactically valid history file whose
`playlists` value is a list rather than a mapping makes `.items()` raise
`AttributeError`, which the `except` clause of `_load` does not catch, so
constructing the ledger fails instead of degrading to an empty one. -/
theorem history_load_shape_cex :
    history_load (some (Except.ok (JValue.obj [("playlists", JValue.arr [])])))
      = Except.error PyErr.attributeError := rfl

/-- C9 amended: loading degrades to an empty ledger for a missing file,
an unreadable file (`IOError`), malformed JSON (`JSONDecodeError`) and
data missing required keys (`KeyError`); well-shaped data loads as-is.
(Type-mismatched shapes raise uncaught `TypeError`/`AttributeError`, see
the counterexample.) -/
theorem history_load_degrades_on_caught :
    (history_load none = Except.ok { playlists := [], single_videos := [] }) ∧
    (∀ e, caughtByLoad e = true →
      history_load (some (Except.error e))
        = Except.ok { playlists := [], single_videos := [] }) ∧
    (∀ c e, loadBody c = Except.error e → caughtByLoad e = true →
      history_load (some c) = Except.ok { playlists := [], single_videos := [] }) ∧
    (∀ c st, loadBody c = Except.ok st → history_load (some c) = Except.ok st) := by
  refine ⟨rfl, ?_, ?_, ?_⟩
  · intro e he
    have hb : loadBody (Except.error e) = Except.error e := rfl
    simp [history_load, hb, he]
  · intro c e h1 h2
    simp [history_load, h1, h2]
  · intro c st h1
    simp [history_load, h1]

theorem history_load_degrades_on_caught_witness :
    history_load (some (Except.ok (JValue.obj
        [("playlists", JValue.obj [("p", JValue.obj [])])])))
      = Except.ok { playlists := [], single_videos := [] } :=
  history_load_degrades_on_caught.2.2.1
    (Except.ok (JValue.obj [("playlists", JValue.obj [("p", JValue.obj [])])]))
    PyErr.keyError rfl rfl

/-! ## Claims about batch submission -/

theorem dictInsert_of_fresh {α : Type} (d : List (String × α)) (k : String) (v : α)
    (h : dictLookup d k = none) : dictInsert d k v = d ++ [(k, v)] := by
  induction d with
  | nil => rfl
  | cons kv rest ih =>
    obtain ⟨k0, v0⟩ := kv
    by_cases hk : k0 = k
    · simp [dictLookup, hk] at h
    · simp only [dictLookup, if_neg hk] at h
      simp [dictInsert, hk, ih h]

theorem dictLookup_append {α : Type} (d1 d2 : List (String × α)) (k : String) :
    dictLookup (d1 ++ d2) k
      = match dictLookup d1 k with
        | some v => some v
        | none => dictLookup d2 k := by
  induction d1 with
  | nil => simp [dictLookup]
  | cons kv rest ih =>
    obtain ⟨k0, v0⟩ := kv
    by_cases hk : k0 = k
    · simp [dictLookup, hk]
    · simp [dictLookup, hk, ih]

/-- An ACTIVE (non-terminal) task: the batch it belongs to is in flight. -/
def inFlightTask : DownloadTask :=
  { task_id := "a", url := "u", title := "A", status := TaskStatus.active }

def inFlightState : ManagerState :=
  { tasks := [("a", inFlightTask)], cancel_flags := [("a", false)],
    is_running := true }

def secondBatchTask : DownloadTask := { task_id := "b", url := "u2", title := "B" }

/-- C1 counterexample: with a batch in flight (`is_running` true, one
registered task still ACTIVE), `submit_tasks` is not rejected: the new task
is added to the registry and a new cancellation token is created. -/
theorem submit_tasks_rejects_cex :
    inFlightState.is_running = true ∧
    inFlightTask.status = TaskStatus.active ∧
    submit_tasks inFlightState [secondBatchTask] ≠ inFlightState ∧
    (submit_tasks inFlightState [secondBatchTask]).tasks.length = 2 ∧
    dictLookup (submit_tasks inFlightState [secondBatchTask]).tasks "b"
      = some secondBatchTask ∧
    dictLookup (submit_tasks inFlightState [secondBatchTask]).cancel_flags "b"
      = some false := by
  refine ⟨rfl, rfl, ?_, rfl, rfl, rfl⟩
  decide

/-- C1 amended: `submit_tasks` never rejects. Whatever the current state
(a batch in flight included), it sets the running flag and appends every
task of the new batch to the registry with a fresh unset cancellation
token, leaving the entries of all other task ids unchanged. -/
theorem submit_tasks_appends (s : ManagerState) (batch : List DownloadTask)
    (hfresh : ∀ t ∈ batch, dictLookup s.tasks t.task_id = none ∧
      dictLookup s.cancel_flags t.task_id = none)
    (hnodup : (batch.map (fun t => t.task_id)).Nodup) :
    (submit_tasks s batch).tasks
        = s.tasks ++ batch.map (fun t => (t.task_id, t)) ∧
    (submit_tasks s batch).cancel_flags
        = s.cancel_flags ++ batch.map (fun t => (t.task_id, false)) ∧
    (submit_tasks s batch).is_running = true := by
  induction batch generalizing s with
  | nil => exact ⟨by simp [submit_tasks], by simp [submit_tasks], rfl⟩
  | cons t rest ih =>
    obtain ⟨hf1, hf2⟩ := hfresh t (by simp)
    simp only [List.map_cons, List.nodup_cons, List.mem_map] at hnodup
    obtain ⟨hnotin, hnodup'⟩ := hnodup
    have hstep : submit_tasks s (t :: rest)
        = submit_tasks
            { s with tasks := dictInsert s.tasks t.task_id t,
                     cancel_flags := dictInsert s.cancel_flags t.task_id false }
            rest := rfl
    set s1 : ManagerState :=
      { s with tasks := dictInsert s.tasks t.task_id t,
               cancel_flags := dictInsert s.cancel_flags t.task_id false } with hs1
    have hfresh' : ∀ u ∈ rest, dictLookup s1.tasks u.task_id = none ∧
        dictLookup s1.cancel_flags u.task_id = none := by
      intro u hu
      have hne : ¬ t.task_id = u.task_id := by
        intro he
        exact hnotin ⟨u, hu, he.symm⟩
      obtain ⟨hu1, hu2⟩ := hfresh u (by simp [hu])
      constructor
      · rw [hs1]
        simp only [dictInsert_of_fresh s.tasks t.task_id t hf1, dictLookup_append]
        simp [hu1, dictLookup, hne]
      · rw [hs1]
        simp only [dictInsert_of_fresh s.cancel_flags t.task_id false hf2,
          dictLookup_append]
        simp [hu2, dictLookup, hne]
    obtain ⟨ih1, ih2, ih3⟩ := ih s1 hfresh' hnodup'
    refine ⟨?_, ?_, ?_⟩
    · rw [hstep, ih1, hs1]
      simp [dictInsert_of_fresh s.tasks t.task_id t hf1]
    · rw [hstep, ih2, hs1]
      simp [dictInsert_of_fresh s.cancel_flags t.task_id false hf2]
    · rw [hstep]; exact ih3

theorem submit_tasks_appends_witness :
    (submit_tasks inFlightState [secondBatchTask]).tasks
        = inFlightState.tasks ++ [secondBatchTask].map (fun t => (t.task_id, t)) ∧
    (submit_tasks inFlightState [secondBatchTask]).cancel_flags
        = inFlightState.cancel_flags
          ++ [secondBatchTask].map (fun t => (t.task_id, false)) ∧
    (submit_tasks inFlightState [secondBatchTask]).is_running = true :=
  submit_tasks_appends inFlightState [secondBatchTask] (by decide) (by decide)

/-! ## Claim about batch-complete firing -/

/-- C2: the completion protocol admits a valid two-task interleaving in
which both workers store their terminal status before either done-callback
runs; both callbacks then observe "all terminal" and `on_batch_complete`
fires twice for one batch. -/
theorem batch_complete_double_fire :
    validSchedule 2
        [BatchEvent.finish 0 TaskStatus.completed,
         BatchEvent.finish 1 TaskStatus.failed,
         BatchEvent.doneCB 0, BatchEvent.doneCB 1] = true ∧
    (runSchedule
        { statuses := [TaskStatus.active, TaskStatus.active], fired := 0,
          is_running := true }
        [BatchEvent.finish 0 TaskStatus.completed,
         BatchEvent.finish 1 TaskStatus.failed,
         BatchEvent.doneCB 0, BatchEvent.doneCB 1]).fired = 2 := by
  decide

/-! ## Claim about throughput summation -/

theorem sum_speeds_bytes_eq_spec (tasks : List DownloadTask) (acc : ℚ) :
    List.foldlM
      (fun acc t =>
        if t.status ≠ TaskStatus.active ∨ t.speed = "" then some acc
        else (parseSpeedStr t.speed).map (fun q => acc + q))
      acc tasks
      = (specActiveByteRateSum tasks).map (fun s => acc + s) := by
  induction tasks generalizing acc with
  | nil => simp [specActiveByteRateSum]
  | cons t rest ih =>
    rw [List.foldlM_cons]
    by_cases ha : t.status = TaskStatus.active
    · by_cases hsp : t.speed = ""
      · have hp : parseSpeedStr t.speed = some 0 := by rw [hsp]; rfl
        rw [if_pos (Or.inr hsp)]
        show List.foldlM _ acc rest = _
        rw [ih]
        simp only [specActiveByteRateSum, if_pos ha, hp]
        cases h2 : specActiveByteRateSum rest <;> simp [h2]
      · rw [if_neg (by simp [ha, hsp])]
        cases hp : parseSpeedStr t.speed with
        | none => simp [specActiveByteRateSum, ha, hp]
        | some q =>
          show List.foldlM _ (acc + q) rest = _
          rw [ih]
          simp only [specActiveByteRateSum, if_pos ha]
          cases h2 : specActiveByteRateSum rest with
          | none => simp [h2, hp]
          | some s =>
            simp [h2, hp]
            ring
    · rw [if_pos (Or.inl ha)]
      show List.foldlM _ acc rest = _
      rw [ih]
      simp only [specActiveByteRateSum, if_neg ha]

theorem sum_speeds_bytes_eq_spec_sum (tasks : List DownloadTask) :
    sum_speeds_bytes tasks = specActiveByteRateSum tasks := by
  unfold sum_speeds_bytes
  rw [sum_speeds_bytes_eq_spec]
  cases h2 : specActiveByteRateSum tasks <;> simp [h2]

/-- Two ACTIVE tasks whose last-reported speeds are "2.0 MB/s" and
"500 KB/s". -/
def twoSpeedTasks : List DownloadTask :=
  [{ task_id := "1", url := "u", title := "T1", status := TaskStatus.active,
     speed := "2.0 MB/s" },
   { task_id := "2", url := "u", title := "T2", status := TaskStatus.active,
     speed := "500 KB/s" }]

/-- C8: the aggregate throughput is the sum of the ACTIVE tasks' speed
strings parsed back to byte rates (MB/s as 1024·1024, KB/s as 1024, B/s
as-is), re-formatted with a magnitude-appropriate unit; in particular
"2.0 MB/s" + "500 KB/s" re-formats as "2.5 MB/s". -/
theorem total_throughput_roundtrip :
    (∀ tasks, sum_speeds tasks = specTotalThroughput tasks) ∧
    sum_speeds twoSpeedTasks = some "2.5 MB/s" := by
  refine ⟨?_, ?_⟩
  · intro tasks
    unfold sum_speeds specTotalThroughput
    rw [sum_speeds_bytes_eq_spec_sum]
  · have h1 : parseSpeedStr "2.0 MB/s" = some 2097152 := by
      have hd : ("2.0 MB/s").data = ['2', '.', '0', ' ', 'M', 'B', '/', 's'] := by decide
      simp [parseSpeedStr, hd, stripChars, endsWithChars, dropRightChars,
        parseFloatChars, parseFloatBody, splitAtDot, digitsToNat, isPySpace]
      norm_num
    have h2 : parseSpeedStr "500 KB/s" = some 512000 := by
      have hd : ("500 KB/s").data = ['5', '0', '0', ' ', 'K', 'B', '/', 's'] := by decide
      simp [parseSpeedStr, hd, stripChars, endsWithChars, dropRightChars,
        parseFloatChars, parseFloatBody, splitAtDot, digitsToNat, isPySpace]
      norm_num
    have h3 : sum_speeds_bytes twoSpeedTasks = some 2609152 := by
      simp [sum_speeds_bytes, twoSpeedTasks, h1, h2]
      norm_num
    have hfloor : ⌊(26091520 : ℚ) / 1048576⌋ = 24 := by
      rw [Int.floor_eq_iff]
      norm_num
    have hrhe : roundHalfEven ((26091520 : ℚ) / 1048576) = 25 := by
      simp only [roundHalfEven, hfloor]
      norm_num
    have hff : formatFixed1 ((2609152 : ℚ) / (1024 * 1024)) = "2.5" := by
      simp only [formatFixed1]
      rw [show (2609152 : ℚ) / (1024 * 1024) * 10 = 26091520 / 1048576 by norm_num,
        hrhe]
      decide
    have hgt : (2609152 : ℚ) > 1024 * 1024 := by norm_num
    have h4 : formatSpeed 2609152 = "2.5 MB/s" := by
      simp only [formatSpeed, if_pos hgt, hff]
      decide
    unfold sum_speeds
    rw [h3]
    simp [h4]

/-! ## Claim about cancellation precedence -/

theorem cb_ok_flag (flag : ℕ → Bool) (t : ℕ) (task task2 : DownloadTask)
    (p : DownloadProgress)
    (h : mgr_progress_callback flag t task p = Except.ok task2) :
    flag t = false := by
  by_cases hf : flag t
  · simp [mgr_progress_callback, hf] at h
  · simpa using hf

theorem handler_ok_flag (flag : ℕ → Bool) (ct : String) (t : ℕ)
    (task : DownloadTask) (msg : String) (b : Bool) :
    (download_except_handler flag ct t task msg).2.2 = Except.ok b →
      flag ((download_except_handler flag ct t task msg).2.1 - 1) = false := by
  unfold download_except_handler
  cases hcb : mgr_progress_callback flag t task (failedEvent ct msg) with
  | error e =>
    intro h
    simp at h
  | ok task2 =>
    intro _
    simpa using cb_ok_flag flag t task task2 _ hcb

/-- If the modelled `Downloader.download` returns (rather than raises),
its last callback invocation observed the cancellation flag unset. -/
theorem downloader_ok_flag (flag : ℕ → Bool) (script : EngineScript)
    (task : DownloadTask) (b : Bool) :
    (downloader_download flag script task).2.2 = Except.ok b →
      flag ((downloader_download flag script task).2.1 - 1) = false := by
  unfold downloader_download
  cases hinfo : script.info_result with
  | error msg => exact handler_ok_flag flag "Unknown" 0 task msg b
  | ok info =>
    dsimp only
    cases hcb0 : mgr_progress_callback flag 0 task (pendingEvent (titleOf info)) with
    | error msg => exact handler_ok_flag flag (titleOf info) 1 task msg b
    | ok task1 =>
      dsimp only
      rcases hrh : runHooks flag (titleOf info) script.hooks 1 task1 with ⟨task2, t2, e⟩
      cases e with
      | some msg => exact handler_ok_flag flag (titleOf info) t2 task2 msg b
      | none =>
        dsimp only
        cases hfault : script.fault with
        | some msg => exact handler_ok_flag flag (titleOf info) t2 task2 msg b
        | none =>
          dsimp only
          cases hcb2 : mgr_progress_callback flag t2 task2
              (completedEvent (titleOf info)) with
          | error msg => exact handler_ok_flag flag (titleOf info) (t2 + 1) task2 msg b
          | ok task3 =>
            intro _
            simpa using cb_ok_flag flag t2 task2 task3 _ hcb2

/-- C3: if the task's cancellation token is set at some instant `k` before
the executor call's callback timeline ends, the executor call ends by
raising and `_download_task` records CANCELLED — never FAILED — whatever
the engine script did. -/
theorem cancellation_takes_precedence (flag : ℕ → Bool) (script : EngineScript)
    (task0 : DownloadTask) (k : ℕ)
    (hmono : MonotoneFlag flag) (hk : flag k = true)
    (hlt : k < (downloader_download flag script
        { task0 with status := TaskStatus.active }).2.1) :
    (manager_download_task flag script task0).status = TaskStatus.cancelled := by
  unfold manager_download_task
  rcases hrun : downloader_download flag script { task0 with status := TaskStatus.active }
    with ⟨task1, t1, res⟩
  rw [hrun] at hlt
  have hlt2 : k < t1 := hlt
  cases res with
  | ok b =>
    exfalso
    have hok := downloader_ok_flag flag script
      { task0 with status := TaskStatus.active } b (by rw [hrun])
    rw [hrun] at hok
    have hok2 : flag (t1 - 1) = false := hok
    have hflag : flag (t1 - 1) = true := hmono k (t1 - 1) (by omega) hk
    rw [hflag] at hok2
    exact Bool.noConfusion hok2
  | error msg =>
    have hft : flag t1 = true := hmono k t1 (Nat.le_of_lt hlt2) hk
    simp [hft]

def wflag : ℕ → Bool := fun t => decide (1 ≤ t)

def wscript : EngineScript :=
  { info_result := Except.ok (some "T"), hooks := [{ hstatus := "downloading" }],
    fault := none }

def wtask : DownloadTask := { task_id := "w", url := "u", title := "W" }

theorem cancellation_takes_precedence_witness :
    (manager_download_task wflag wscript wtask).status = TaskStatus.cancelled :=
  cancellation_takes_precedence wflag wscript wtask 1
    (fun i j hij hi => by
      simp only [wflag] at hi ⊢
      exact decide_eq_true (Nat.le_trans (of_decide_eq_true hi) hij))
    (by decide)
    (by decide)

end SandSound
